import Mathlib

/-!
Verification of the discord_logging repository: two near-duplicate Python
logging handlers that forward log records to a Discord webhook.

Python strings are embedded as lists of characters (code points), matching
Python's `len` and slicing semantics.  The two handler variants are embedded
in the namespaces `Long` (src/discord_logging/handler.py, the long-format
variant) and `Minimal` (src/handler.py).  External effects (webhook-object
construction, `format`, the outgoing send) are driven by an `Env` oracle
describing which external call fails; `emit` returns an `EmitResult` that
records the final reentrancy flag, the ordered list of observable events,
the composed outbound message (when the send call is reached) and any
exception that propagates out of `emit`.
-/

/-- A Python `str`, as its list of code points. -/
abbrev PyStr := List Char

/-- Embed a Lean string literal as a `PyStr`. -/
def str (s : String) : PyStr := s.toList

/-- The kind of a Python exception, as far as the handlers distinguish them:
`SyncWebhook`'s `HTTPException` versus any other `Exception`. -/
inductive PyErr
  | http
  | generic
deriving DecidableEq

/-- Oracle for the outcomes of the external calls made during one `emit`:
construction of the webhook client object, `self.format(record)`, and the
outgoing send (`execute` / `send`). -/
structure Env where
  constructErr : Option PyErr
  formatResult : Except PyErr PyStr
  executeErr : Option PyErr

/-- Observable events of one `emit` call, in order: an outbound HTTP POST
(the send call), a diagnostic line printed by the handler itself to stderr,
and a call into the logging framework's `handleError` hook. -/
inductive Event
  | post
  | stderrLine
  | handleErrorCall
deriving DecidableEq

/-- The outbound message composed for the webhook: either a plain `content`
string (the fenced code block) or one embed with title, optional
description and colour. -/
inductive OutMessage
  | content (body : PyStr)
  | embed (title : PyStr) (description : Option PyStr) (color : Nat)
deriving DecidableEq

/-- Result of one `emit` call: final value of the `reentry_barrier` flag,
the ordered observable events, the outbound message (recorded when the send
call is made), and the exception propagating out of `emit`, if any. -/
structure EmitResult where
  reentry_barrier : Bool
  events : List Event
  message : Option OutMessage
  raised : Option PyErr
deriving DecidableEq

/-- Python `dict.get(k)` on a severity-keyed mapping embedded as an
association list; the `None` key of the Python dicts is `Option.none`. -/
def pyGet {α : Type} (m : List (Option Nat × α)) (k : Option Nat) : Option α :=
  (m.find? (fun kv => decide (kv.1 = k))).map (fun kv => kv.2)

/-- Python `s.split(sep)` for a single-character separator: at least one
chunk is always produced (`"".split(sep) == [""]`). -/
def splitLines (s : PyStr) : List PyStr :=
  match s with
  | [] => [[]]
  | c :: rest =>
    if c = '\n' then [] :: splitLines rest
    else
      match splitLines rest with
      | [] => [[c]]
      | l :: ls => (c :: l) :: ls

/-- An environment in which every external call succeeds and `format`
returns `msg`. -/
def okEnv (msg : PyStr) : Env :=
  { constructErr := none, formatResult := Except.ok msg, executeErr := none }

namespace Long

/-- Constructor parameters of `DiscordHandler` in
src/discord_logging/handler.py. -/
structure Config where
  service_name : PyStr
  webhook_url : PyStr
  colours : List (Option Nat × Nat)
  emojis : List (Option Nat × PyStr)
  avatar_url : Option PyStr
  rate_limit_retry : Bool
  embed_line_wrap_threshold : Nat

/-- `DEFAULT_COLOURS` of src/discord_logging/handler.py: the Python `None`
key is `Option.none`; CRITICAL=50, ERROR=40, WARNING=30, INFO=20, DEBUG=10. -/
def DEFAULT_COLOURS : List (Option Nat × Nat) :=
  [(none, 2040357), (some 50, 14362664), (some 40, 14362664),
   (some 30, 16497928), (some 20, 2196944), (some 10, 8947848)]

/-- `DEFAULT_EMOJIS` of src/discord_logging/handler.py. -/
def DEFAULT_EMOJIS : List (Option Nat × PyStr) :=
  [(none, str ""), (some 50, str "🆘"), (some 40, str "❌"),
   (some 30, str "⚠️"), (some 20, str ""), (some 10, str "")]

/-- `DiscordHandler.should_format_as_code_block` (lines 71-81): true when
the message has a long single line or contains a newline. -/
def should_format_as_code_block (cfg : Config) (msg : PyStr) : Bool :=
  if !(msg.contains '\n') && decide (msg.length > cfg.embed_line_wrap_threshold) then
    true
  else
    msg.contains '\n'

/-- Python `content[-max_len:]`: the last `min(max_len, len)` characters,
except that `-0` is `0`, so `max_len = 0` yields the whole string. -/
def pyTailSlice (s : PyStr) (k : Nat) : PyStr :=
  if k = 0 then s else s.drop (s.length - k)

/-- `DiscordHandler.clip_content` (lines 83-94).  The Python comparison
`len(content) > max_len - 5` is over mathematical integers. -/
def clip_content (content : PyStr) (max_len : Nat) (clip_to_end : Bool) : PyStr :=
  if (content.length : Int) > (max_len : Int) - 5 then
    if clip_to_end then
      str "..." ++ pyTailSlice content max_len
    else
      content.take max_len ++ str "..."
  else
    content

/-- `msg.split("\n", maxsplit=1)` followed by the two-name unpacking with
the `ValueError` fallback `first = msg; remainder = ""` (lines 131-135). -/
def splitFirstLine (msg : PyStr) : PyStr × PyStr :=
  match splitLines msg with
  | [] => (msg, [])
  | [_] => (msg, [])
  | f :: rest => (f, List.intercalate [Char.ofNat 10] rest)

/-- `max([len(l) for l in msg.split("\n")])` (line 137). -/
def max_line_length (msg : PyStr) : Nat :=
  (splitLines msg).foldl (fun acc l => max acc l.length) 0

/-- `self.colours[None]`: a `KeyError` when the fallback key is missing. -/
def fallbackColour (colours : List (Option Nat × Nat)) : Except PyErr Nat :=
  match pyGet colours none with
  | some c => Except.ok c
  | none => Except.error PyErr.generic

/-- `colour = self.colours.get(record.levelno) or self.colours[None]`
(line 122): the configured colour is kept only when present and truthy
(non-zero); otherwise the fallback key is read (and may raise). -/
def resolveColour (colours : List (Option Nat × Nat)) (levelno : Nat) : Except PyErr Nat :=
  match pyGet colours (some levelno) with
  | some c => if c = 0 then fallbackColour colours else Except.ok c
  | none => fallbackColour colours

/-- `emoji = self.emojis.get(record.levelno)` then
`if emoji: emoji += " "` (lines 123-126): an absent level leaves the
Python value `None`. -/
def emojiVar (emojis : List (Option Nat × PyStr)) (levelno : Nat) : Option PyStr :=
  match pyGet emojis (some levelno) with
  | some e => if e = [] then some e else some (e ++ str " ")
  | none => none

/-- Python truthiness of the `emoji` variable (`None` and `""` are falsy). -/
def truthy : Option PyStr → Bool
  | none => false
  | some s => !s.isEmpty

/-- Rendering of the `emoji` variable inside an f-string: Python formats
`None` as the four characters `None`. -/
def pyFStr : Option PyStr → PyStr
  | none => str "None"
  | some s => s

/-- `DiscordHandler.emit` (lines 96-167).  The reentrancy check, the guard
set/clear (`finally`), the `DiscordWebhook(...)` construction (inside the
outer `try` but outside the inner `try`/`except`, so its exception
propagates), the inner `try` covering `format`, style resolution, layout
and `execute`, and the `except Exception` arm printing one stderr line and
calling `handleError`. -/
def emit (cfg : Config) (reentry_barrier : Bool) (env : Env) (levelno : Nat) : EmitResult :=
  if reentry_barrier then
    { reentry_barrier := reentry_barrier, events := [], message := none, raised := none }
  else
    match env.constructErr with
    | some e =>
      { reentry_barrier := false, events := [], message := none, raised := some e }
    | none =>
      match env.formatResult with
      | Except.error _ =>
        { reentry_barrier := false, events := [Event.stderrLine, Event.handleErrorCall],
          message := none, raised := none }
      | Except.ok msg =>
        match resolveColour cfg.colours levelno with
        | Except.error _ =>
          { reentry_barrier := false, events := [Event.stderrLine, Event.handleErrorCall],
            message := none, raised := none }
        | Except.ok colour =>
          let emoji := emojiVar cfg.emojis levelno
          let out : OutMessage :=
            if should_format_as_code_block cfg msg then
              let fr := splitFirstLine msg
              let clipped := clip_content fr.2 1900 true
              if max_line_length msg > cfg.embed_line_wrap_threshold then
                OutMessage.content
                  (str "```" ++ pyFStr emoji ++ clip_content msg 1900 true ++ str "```")
              else
                OutMessage.embed (pyFStr emoji ++ fr.1) (some clipped) colour
            else
              OutMessage.embed (if truthy emoji then pyFStr emoji ++ msg else msg) none colour
          match env.executeErr with
          | some _ =>
            { reentry_barrier := false,
              events := [Event.post, Event.stderrLine, Event.handleErrorCall],
              message := some out, raised := none }
          | none =>
            { reentry_barrier := false, events := [Event.post],
              message := some out, raised := none }

/-- A handler built with the constructor's default arguments. -/
def defaultConfig : Config :=
  { service_name := str "svc", webhook_url := str "https://example.invalid/webhook",
    colours := DEFAULT_COLOURS, emojis := DEFAULT_EMOJIS, avatar_url := none,
    rate_limit_retry := true, embed_line_wrap_threshold := 60 }

end Long

namespace Minimal

/-- Constructor parameters of `DiscordHandler` in src/handler.py. -/
structure Config where
  service_name : PyStr
  webhook_url : PyStr
  colours : List (Option Nat × Nat)
  emojis : List (Option Nat × PyStr)
  avatar_url : Option PyStr

/-- `DEFAULT_COLOURS` of src/handler.py (same values as the long variant). -/
def DEFAULT_COLOURS : List (Option Nat × Nat) :=
  [(none, 2040357), (some 50, 14362664), (some 40, 14362664),
   (some 30, 16497928), (some 20, 2196944), (some 10, 8947848)]

/-- `DEFAULT_EMOJIS` of src/handler.py. -/
def DEFAULT_EMOJIS : List (Option Nat × PyStr) :=
  [(none, str ""), (some 50, str "🆘"), (some 40, str "❌"),
   (some 30, str "⚠️"), (some 20, str ""), (some 10, str "")]

/-- The two `except` arms of src/handler.py (lines 86-89): `HTTPException`
prints one stderr line, any other `Exception` calls `handleError`. -/
def errorEvents : PyErr → List Event
  | PyErr.http => [Event.stderrLine]
  | PyErr.generic => [Event.handleErrorCall]

/-- `DiscordHandler.emit` of src/handler.py (lines 61-91).  Everything is
inside the `try`, so no exception propagates; `colour` uses
`get(levelno, colours[None])` (the default argument `colours[None]` is
evaluated eagerly and a missing fallback key raises a `KeyError`);
`emoji` uses `get(levelno, "")`. -/
def emit (cfg : Config) (reentry_barrier : Bool) (env : Env) (levelno : Nat) : EmitResult :=
  if reentry_barrier then
    { reentry_barrier := reentry_barrier, events := [], message := none, raised := none }
  else
    match env.formatResult with
    | Except.error e =>
      { reentry_barrier := false, events := errorEvents e, message := none, raised := none }
    | Except.ok msg0 =>
      match pyGet cfg.colours none with
      | none =>
        { reentry_barrier := false, events := errorEvents PyErr.generic,
          message := none, raised := none }
      | some fallback =>
        let colour := (pyGet cfg.colours (some levelno)).getD fallback
        let emoji := (pyGet cfg.emojis (some levelno)).getD []
        let msg := if emoji.isEmpty then msg0 else emoji ++ str " " ++ msg0
        match env.constructErr with
        | some e =>
          { reentry_barrier := false, events := errorEvents e, message := none, raised := none }
        | none =>
          let out : OutMessage := OutMessage.embed msg none colour
          match env.executeErr with
          | some e =>
            { reentry_barrier := false, events := Event.post :: errorEvents e,
              message := some out, raised := none }
          | none =>
            { reentry_barrier := false, events := [Event.post],
              message := some out, raised := none }

/-- A handler built with the constructor's default arguments. -/
def defaultConfig : Config :=
  { service_name := str "svc", webhook_url := str "https://example.invalid/webhook",
    colours := DEFAULT_COLOURS, emojis := DEFAULT_EMOJIS, avatar_url := none }

end Minimal

/-! ### Shared lemmas about the two `emit` functions -/

/-- In the long variant a call that passes the reentrancy check propagates
exactly the webhook-construction exception: every later failure is caught
by the inner `except Exception` arm. -/
theorem longEmitRaised (cfg : Long.Config) (env : Env) (l : Nat) :
    (Long.emit cfg false env l).raised = env.constructErr := by
  rcases env with ⟨ce, fr, ee⟩
  cases ce with
  | some e => rfl
  | none =>
    cases fr with
    | error e => rfl
    | ok msg =>
      cases h : Long.resolveColour cfg.colours l with
      | error e => simp [Long.emit, h]
      | ok colour => cases ee <;> simp [Long.emit, h]

/-- The minimal variant never lets an exception escape `emit`. -/
theorem minimalEmitRaised (cfg : Minimal.Config) (b : Bool) (env : Env) (l : Nat) :
    (Minimal.emit cfg b env l).raised = none := by
  rcases env with ⟨ce, fr, ee⟩
  cases b with
  | true => rfl
  | false =>
    cases fr with
    | error e => cases e <;> rfl
    | ok msg =>
      cases h : pyGet cfg.colours none with
      | none => simp [Minimal.emit, h]
      | some fb => cases ce <;> cases ee <;> simp [Minimal.emit, h]

/-- The `finally` clause of the long variant: a call entered with the flag
clear leaves the flag clear on every path. -/
theorem longEmitBarrier (cfg : Long.Config) (env : Env) (l : Nat) :
    (Long.emit cfg false env l).reentry_barrier = false := by
  rcases env with ⟨ce, fr, ee⟩
  cases ce with
  | some e => rfl
  | none =>
    cases fr with
    | error e => rfl
    | ok msg =>
      cases h : Long.resolveColour cfg.colours l with
      | error e => simp [Long.emit, h]
      | ok colour => cases ee <;> simp [Long.emit, h]

/-- The `finally` clause of the minimal variant: a call entered with the
flag clear leaves the flag clear on every path. -/
theorem minimalEmitBarrier (cfg : Minimal.Config) (env : Env) (l : Nat) :
    (Minimal.emit cfg false env l).reentry_barrier = false := by
  rcases env with ⟨ce, fr, ee⟩
  cases fr with
  | error e => cases e <;> rfl
  | ok msg =>
    cases h : pyGet cfg.colours none with
    | none => simp [Minimal.emit, h]
    | some fb => cases ce <;> cases ee <;> simp [Minimal.emit, h]

/-! ### C1 -/

/-- C1: the claim that no exception ever propagates out of `emit` is false
for the long-format variant: `DiscordWebhook(...)` is constructed inside
the outer `try` but outside the inner `try`/`except`, so a construction
failure propagates to the caller.  Concrete input: a record at level INFO
with a default configuration and a webhook client whose constructor
raises. -/
theorem claim1_counterexample :
    (Long.emit Long.defaultConfig false
      { constructErr := some PyErr.generic,
        formatResult := Except.ok (str "hello"), executeErr := none } 20).raised =
      some PyErr.generic := rfl

/-- C1 (amended): on every call in which webhook-object construction does
not fail, no exception from formatting, style resolution or delivery ever
propagates out of `emit`, in either variant; the minimal variant also
swallows construction failures (its construction happens inside the
`try`). -/
theorem claim1_no_exception_escape (mcfg : Minimal.Config) (lcfg : Long.Config)
    (b : Bool) (envm envl : Env) (l : Nat) (h : envl.constructErr = none) :
    (Minimal.emit mcfg b envm l).raised = none ∧
    (Long.emit lcfg b envl l).raised = none := by
  refine ⟨minimalEmitRaised mcfg b envm l, ?_⟩
  cases b with
  | true => rfl
  | false => rw [longEmitRaised, h]

/-- C1 witness: both variants return normally on a fully successful
delivery of the message `hello` at level INFO. -/
theorem claim1_witness :
    (Minimal.emit Minimal.defaultConfig false (okEnv (str "hello")) 20).raised = none ∧
    (Long.emit Long.defaultConfig false (okEnv (str "hello")) 20).raised = none :=
  claim1_no_exception_escape Minimal.defaultConfig Long.defaultConfig false
    (okEnv (str "hello")) (okEnv (str "hello")) 20 rfl

/-! ### C2 -/

/-- C2: when the reentrancy flag is already set, `emit` is a complete
no-op in both variants: no events (no POST, no stderr write, no
`handleError`), no outbound message, no exception, and the flag keeps its
value. -/
theorem claim2_reentrant_noop (lcfg : Long.Config) (mcfg : Minimal.Config)
    (env : Env) (l : Nat) :
    Long.emit lcfg true env l =
      { reentry_barrier := true, events := [], message := none, raised := none } ∧
    Minimal.emit mcfg true env l =
      { reentry_barrier := true, events := [], message := none, raised := none } :=
  ⟨rfl, rfl⟩

/-! ### C3 -/

/-- C3: a call that starts with the reentrancy flag clear always leaves it
clear, whatever the outcome of delivery, in both variants; hence a
subsequent independent `emit` call behaves exactly like a call entered
with a clear flag. -/
theorem claim3_guard_cleared (lcfg : Long.Config) (mcfg : Minimal.Config)
    (env env2 : Env) (l l2 : Nat) :
    (Long.emit lcfg false env l).reentry_barrier = false ∧
    (Minimal.emit mcfg false env l).reentry_barrier = false ∧
    Long.emit lcfg ((Long.emit lcfg false env l).reentry_barrier) env2 l2 =
      Long.emit lcfg false env2 l2 ∧
    Minimal.emit mcfg ((Minimal.emit mcfg false env l).reentry_barrier) env2 l2 =
      Minimal.emit mcfg false env2 l2 := by
  refine ⟨longEmitBarrier lcfg env l, minimalEmitBarrier mcfg env l, ?_, ?_⟩
  · rw [longEmitBarrier]
  · rw [minimalEmitBarrier]

/-! ### Lemmas about `clip_content` -/

/-- Tail-policy clipping, spelled out: once triggered it prepends the
ellipsis to the last `min(max_len, length)` characters (for a non-zero
`max_len`). -/
theorem clipTailEq (content : PyStr) (M : Nat)
    (h : (content.length : Int) > (M : Int) - 5) (hM : ¬ M = 0) :
    Long.clip_content content M true =
      str "..." ++ content.drop (content.length - M) := by
  unfold Long.clip_content Long.pyTailSlice
  rw [if_pos h, if_pos rfl, if_neg hM]

/-- Head-policy clipping, spelled out. -/
theorem clipHeadEq (content : PyStr) (M : Nat)
    (h : (content.length : Int) > (M : Int) - 5) :
    Long.clip_content content M false = content.take M ++ str "..." := by
  unfold Long.clip_content
  rw [if_pos h, if_neg (by decide : ¬ false = true)]

/-- Both clipping policies keep the result within `max_len + 3` characters
whenever `5 ≤ max_len`. -/
theorem clipLenBound (content : PyStr) (M : Nat) (b : Bool) (hM : 5 ≤ M) :
    (Long.clip_content content M b).length ≤ M + 3 := by
  by_cases h : (content.length : Int) > (M : Int) - 5
  · cases b with
    | true =>
      rw [clipTailEq content M h (by omega)]
      rw [List.length_append, List.length_drop,
        show (str "...").length = 3 from rfl]
      omega
    | false =>
      rw [clipHeadEq content M h]
      rw [List.length_append, List.length_take,
        show (str "...").length = 3 from rfl]
      omega
  · unfold Long.clip_content
    rw [if_neg h]
    omega

/-! ### C6 -/

/-- C6: the claim that tail-policy clipping yields exactly `M` characters
of content (plus the ellipsis) whenever `L > M - 5` is false: for the
six-character content `abcdef` and `M = 10` the clip triggers
(`6 > 10 - 5`) but the result is the ellipsis plus all six characters,
nine characters in total rather than `3 + 10`. -/
theorem claim6_counterexample :
    Long.clip_content (str "abcdef") 10 true = str "...abcdef" ∧
    (((str "abcdef").length : Int) > (10 : Int) - 5) ∧
    (Long.clip_content (str "abcdef") 10 true).length = 9 ∧
    ¬ (Long.clip_content (str "abcdef") 10 true).length = 3 + 10 := by
  decide

/-- C6 (amended): for every `max_len ≥ 1`, content of length at most
`max_len - 5` is returned unchanged by both policies; longer content is
clipped, the tail policy to the ellipsis plus the last
`min(max_len, length)` characters and the head policy to the first
`min(max_len, length)` characters plus the ellipsis (so exactly `max_len`
kept characters only when the content is at least that long). -/
theorem claim6_clipping (content : PyStr) (M : Nat) (hM : 1 ≤ M) :
    ((content.length : Int) ≤ (M : Int) - 5 →
      Long.clip_content content M true = content ∧
      Long.clip_content content M false = content) ∧
    ((content.length : Int) > (M : Int) - 5 →
      Long.clip_content content M true =
        str "..." ++ content.drop (content.length - M) ∧
      (Long.clip_content content M true).length = 3 + min M content.length ∧
      Long.clip_content content M false = content.take M ++ str "..." ∧
      (Long.clip_content content M false).length = min M content.length + 3) := by
  constructor
  · intro h
    constructor <;> (unfold Long.clip_content; rw [if_neg (by omega)])
  · intro h
    refine ⟨clipTailEq content M h (by omega), ?_, clipHeadEq content M h, ?_⟩
    · rw [clipTailEq content M h (by omega), List.length_append, List.length_drop,
        show (str "...").length = 3 from rfl]
      omega
    · rw [clipHeadEq content M h, List.length_append, List.length_take,
        show (str "...").length = 3 from rfl]

/-- C6 witness: sixteen-character content with `max_len = 10`, both
policies. -/
theorem claim6_witness :
    Long.clip_content (str "abcdefghijklmnop") 10 true =
      str "..." ++ (str "abcdefghijklmnop").drop ((str "abcdefghijklmnop").length - 10) ∧
    (Long.clip_content (str "abcdefghijklmnop") 10 true).length =
      3 + min 10 (str "abcdefghijklmnop").length ∧
    Long.clip_content (str "abcdefghijklmnop") 10 false =
      (str "abcdefghijklmnop").take 10 ++ str "..." ∧
    (Long.clip_content (str "abcdefghijklmnop") 10 false).length =
      min 10 (str "abcdefghijklmnop").length + 3 :=
  (claim6_clipping (str "abcdefghijklmnop") 10 (by decide)).2 (by decide)

/-! ### C10 -/

/-- C10: `clip_content` is total, its result never exceeds `max_len + 3`
characters (1903 with the default `max_len` of 1900), and in the window
`max_len - 5 < L ≤ max_len` the tail policy returns the ellipsis followed
by the entire unshortened content. -/
theorem claim10_clip_bounds (content : PyStr) (M : Nat) (b : Bool) (hM : 5 ≤ M) :
    (Long.clip_content content M b).length ≤ M + 3 ∧
    (Long.clip_content content 1900 b).length ≤ 1903 ∧
    ((M : Int) - 5 < (content.length : Int) → content.length ≤ M →
      Long.clip_content content M true = str "..." ++ content) := by
  refine ⟨clipLenBound content M b hM, ?_, ?_⟩
  · have h := clipLenBound content 1900 b (by omega)
    omega
  · intro h1 h2
    rw [clipTailEq content M h1 (by omega),
      show content.length - M = 0 by omega, List.drop_zero]

/-- C10 witness: the eight-character content `abcdefgh` with
`max_len = 10` lies in the window `10 - 5 < 8 ≤ 10` and is returned whole
behind the ellipsis. -/
theorem claim10_witness :
    (Long.clip_content (str "abcdefgh") 10 true).length ≤ 10 + 3 ∧
    (Long.clip_content (str "abcdefgh") 1900 true).length ≤ 1903 ∧
    (((10 : Nat) : Int) - 5 < ((str "abcdefgh").length : Int) →
      (str "abcdefgh").length ≤ 10 →
      Long.clip_content (str "abcdefgh") 10 true = str "..." ++ str "abcdefgh") :=
  claim10_clip_bounds (str "abcdefgh") 10 true (by decide)

/-! ### Lemmas about line splitting and the layout decision -/

/-- Python `split` always yields at least one chunk. -/
theorem splitLines_ne_nil (s : PyStr) : splitLines s ≠ [] := by
  induction s with
  | nil => simp [splitLines]
  | cons c rest ih =>
    unfold splitLines
    split
    · simp
    · split
      · simp
      · simp

/-- A message without separator splits into the single chunk equal to the
whole message. -/
theorem splitLines_singleton : ∀ (s x : PyStr), splitLines s = [x] → x = s := by
  intro s
  induction s with
  | nil =>
    intro x h
    simp [splitLines] at h
    exact h
  | cons c rest ih =>
    intro x h
    unfold splitLines at h
    by_cases hc : c = '\n'
    · rw [if_pos hc] at h
      injection h with h1 h2
      exact absurd h2 (splitLines_ne_nil rest)
    · rw [if_neg hc] at h
      cases hr : splitLines rest with
      | nil => exact absurd hr (splitLines_ne_nil rest)
      | cons l ls =>
        rw [hr] at h
        injection h with h1 h2
        subst h2
        rw [← h1, ih l (by rw [hr])]

/-- The seed of the running maximum never exceeds the result. -/
theorem le_foldlMax (L : List PyStr) (a : Nat) :
    a ≤ L.foldl (fun acc l => max acc l.length) a := by
  induction L generalizing a with
  | nil => exact le_refl a
  | cons x xs ih => exact le_trans (Nat.le_max_left a x.length) (ih (max a x.length))

/-- Every chunk's length is bounded by the running maximum of the lengths. -/
theorem mem_le_foldlMax (x : PyStr) :
    ∀ (L : List PyStr) (a : Nat), x ∈ L →
      x.length ≤ L.foldl (fun acc l => max acc l.length) a := by
  intro L
  induction L with
  | nil =>
    intro a hx
    cases hx
  | cons y ys ih =>
    intro a hx
    rcases List.mem_cons.mp hx with h | h
    · subst h
      exact le_trans (Nat.le_max_right a x.length) (le_foldlMax ys (max a x.length))
    · exact le_trans (ih (max a y.length) h) (le_refl _)

/-- The first line extracted for the embed title is never longer than the
longest line of the message. -/
theorem firstLine_le_max (msg : PyStr) :
    (Long.splitFirstLine msg).1.length ≤ Long.max_line_length msg := by
  unfold Long.splitFirstLine Long.max_line_length
  cases h : splitLines msg with
  | nil => exact absurd h (splitLines_ne_nil msg)
  | cons f rest =>
    cases rest with
    | nil =>
      have hf : f = msg := splitLines_singleton msg f h
      subst hf
      simp
    | cons g rest2 =>
      simpa using mem_le_foldlMax f (f :: g :: rest2) 0 (List.mem_cons_self f (g :: rest2))

/-- A message that does not trigger code-block formatting has no newline
and fits the wrap threshold. -/
theorem not_code_block (cfg : Long.Config) (msg : PyStr)
    (h : Long.should_format_as_code_block cfg msg = false) :
    msg.contains '\n' = false ∧ msg.length ≤ cfg.embed_line_wrap_threshold := by
  unfold Long.should_format_as_code_block at h
  split at h
  · exact absurd h (by simp)
  · rename_i hcond
    refine ⟨h, ?_⟩
    rw [h] at hcond
    simpa using hcond

/-- Conversely, a short single-line message never triggers code-block
formatting. -/
theorem code_block_false (cfg : Long.Config) (msg : PyStr)
    (h1 : msg.contains '\n' = false) (h2 : msg.length ≤ cfg.embed_line_wrap_threshold) :
    Long.should_format_as_code_block cfg msg = false := by
  unfold Long.should_format_as_code_block
  rw [h1]
  simp [Nat.not_lt.mpr h2]

/-! ### Characterization of the composed message -/

/-- The message composed by the long variant once formatting and colour
resolution succeed: the full layout decision of `emit`, as one expression. -/
theorem longEmitMessageOk (cfg : Long.Config) (msg : PyStr) (l : Nat) (colour : Nat)
    (env : Env) (hce : env.constructErr = none)
    (hfr : env.formatResult = Except.ok msg)
    (hc : Long.resolveColour cfg.colours l = Except.ok colour) :
    (Long.emit cfg false env l).message =
      some (if Long.should_format_as_code_block cfg msg then
              if Long.max_line_length msg > cfg.embed_line_wrap_threshold then
                OutMessage.content (str "```" ++ Long.pyFStr (Long.emojiVar cfg.emojis l) ++
                  Long.clip_content msg 1900 true ++ str "```")
              else
                OutMessage.embed
                  (Long.pyFStr (Long.emojiVar cfg.emojis l) ++ (Long.splitFirstLine msg).1)
                  (some (Long.clip_content (Long.splitFirstLine msg).2 1900 true)) colour
            else
              OutMessage.embed
                (if Long.truthy (Long.emojiVar cfg.emojis l) then
                   Long.pyFStr (Long.emojiVar cfg.emojis l) ++ msg
                 else msg) none colour) := by
  rcases env with ⟨ce, fr, ee⟩
  dsimp only at hce hfr
  subst hce
  subst hfr
  cases ee <;> simp [Long.emit, hc]

/-- The long variant composes no message when colour resolution raises. -/
theorem longEmitMessageErr (cfg : Long.Config) (msg : PyStr) (l : Nat) (er : PyErr)
    (env : Env) (hce : env.constructErr = none)
    (hfr : env.formatResult = Except.ok msg)
    (hc : Long.resolveColour cfg.colours l = Except.error er) :
    (Long.emit cfg false env l).message = none := by
  rcases env with ⟨ce, fr, ee⟩
  dsimp only at hce hfr
  subst hce
  subst hfr
  cases ee <;> simp [Long.emit, hc]

/-- The message composed by the minimal variant on a successful call. -/
theorem minimalEmitMessageOk (cfg : Minimal.Config) (msg : PyStr) (l : Nat) (fb : Nat)
    (env : Env) (hce : env.constructErr = none)
    (hfr : env.formatResult = Except.ok msg)
    (hfb : pyGet cfg.colours none = some fb) :
    (Minimal.emit cfg false env l).message =
      some (OutMessage.embed
        (if ((pyGet cfg.emojis (some l)).getD []).isEmpty then msg
         else ((pyGet cfg.emojis (some l)).getD []) ++ str " " ++ msg)
        none ((pyGet cfg.colours (some l)).getD fb)) := by
  rcases env with ⟨ce, fr, ee⟩
  dsimp only at hce hfr
  subst hce
  subst hfr
  cases ee <;> simp [Minimal.emit, hfb]

/-- Value and truthiness of the long variant's `emoji` variable when the
severity is present in the emoji mapping. -/
theorem emojiFacts (emojis : List (Option Nat × PyStr)) (l : Nat) (e : PyStr)
    (he : pyGet emojis (some l) = some e) :
    Long.pyFStr (Long.emojiVar emojis l) = (if e = [] then [] else e ++ str " ") ∧
    Long.truthy (Long.emojiVar emojis l) = !e.isEmpty := by
  unfold Long.emojiVar
  rw [he]
  by_cases h : e = []
  · subst h
    simp [Long.pyFStr, Long.truthy]
  · rw [if_neg h]
    constructor
    · simp [Long.pyFStr, if_neg h]
    · cases e with
      | nil => exact absurd rfl h
      | cons c tl => rfl

/-! ### C4 -/

/-- C4: the claim that a severity absent from the mappings falls back to
the mappings' fallback entry for both colour and emoji is false for the
emoji half.  Concrete input: the minimal variant configured with the emoji
mapping `{None: "X"}` (non-empty fallback entry) and default colours, a
record at level INFO (absent from that emoji mapping) with message `hi`:
the outbound title is `hi` with no `X ` prefix, although the fallback
emoji is `X`. -/
theorem claim4_counterexample :
    pyGet ([(none, str "X")] : List (Option Nat × PyStr)) none = some (str "X") ∧
    (Minimal.emit
      { service_name := str "svc", webhook_url := str "u",
        colours := Minimal.DEFAULT_COLOURS, emojis := [(none, str "X")],
        avatar_url := none } false (okEnv (str "hi")) 20).message =
      some (OutMessage.embed (str "hi") none 2196944) := by
  constructor
  · rfl
  · rfl

/-- C4 (amended): for a severity present in the mappings the configured
pair is used, except that in the long variant a configured colour of zero
(falsy in Python) is replaced by the fallback colour; for an absent
severity the colour falls back to the mappings' fallback entry in both
variants, but the emoji does not: the minimal variant substitutes the
empty string and the long variant the Python value `None`, never the
mappings' fallback entry. -/
theorem claim4_style_resolution (mcfg : Minimal.Config) (lcfg : Long.Config)
    (l : Nat) (msg : PyStr) (fb : Nat)
    (hfb : pyGet mcfg.colours none = some fb) :
    ((pyGet mcfg.emojis (some l) = none →
        (Minimal.emit mcfg false (okEnv msg) l).message =
          some (OutMessage.embed msg none ((pyGet mcfg.colours (some l)).getD fb))) ∧
     (∀ e, pyGet mcfg.emojis (some l) = some e → ¬ e = [] →
        (Minimal.emit mcfg false (okEnv msg) l).message =
          some (OutMessage.embed (e ++ str " " ++ msg) none
            ((pyGet mcfg.colours (some l)).getD fb)))) ∧
    ((∀ c, pyGet lcfg.colours (some l) = some c → ¬ c = 0 →
        Long.resolveColour lcfg.colours l = Except.ok c) ∧
     ((pyGet lcfg.colours (some l) = some 0 ∨ pyGet lcfg.colours (some l) = none) →
        Long.resolveColour lcfg.colours l = Long.fallbackColour lcfg.colours) ∧
     (pyGet lcfg.emojis (some l) = none → Long.emojiVar lcfg.emojis l = none) ∧
     (∀ e, pyGet lcfg.emojis (some l) = some e → ¬ e = [] →
        Long.emojiVar lcfg.emojis l = some (e ++ str " "))) := by
  refine ⟨⟨?_, ?_⟩, ?_, ?_, ?_, ?_⟩
  · intro he
    rw [minimalEmitMessageOk mcfg msg l fb (okEnv msg) rfl rfl hfb, he]
    simp
  · intro e he hne
    rw [minimalEmitMessageOk mcfg msg l fb (okEnv msg) rfl rfl hfb, he]
    cases e with
    | nil => exact absurd rfl hne
    | cons c tl => simp
  · intro c hc hcne
    simp [Long.resolveColour, hc, hcne]
  · intro h
    unfold Long.resolveColour
    rcases h with h | h
    · rw [h]
      simp
    · rw [h]
  · intro he
    unfold Long.emojiVar
    rw [he]
  · intro e he hne
    simp [Long.emojiVar, he, hne]

/-- C4 witness: with default mappings at level CRITICAL the configured
pair (red, SOS emoji) is used, delivered with the single-space emoji
separator. -/
theorem claim4_witness :
    (Minimal.emit Minimal.defaultConfig false (okEnv (str "hi")) 50).message =
      some (OutMessage.embed (str "🆘" ++ str " " ++ str "hi") none
        ((pyGet Minimal.defaultConfig.colours (some 50)).getD 2040357)) :=
  ((claim4_style_resolution Minimal.defaultConfig Long.defaultConfig 50 (str "hi")
    2040357 rfl).1.2) (str "🆘") rfl (by decide)

/-! ### C5 -/

/-- C5: the layout decision of the long-format variant, for a severity
present in the emoji mapping and a successful delivery.  A single-line
message within the wrap threshold becomes a short embed (title is the
emoji prefix plus the message, no description); when the longest line
exceeds the threshold the whole clipped message is sent as one fenced code
block with the emoji inside the fence; otherwise the first line becomes
the embed title (emoji-prefixed) and the clipped remainder its
description. -/
theorem claim5_layout (cfg : Long.Config) (l : Nat) (msg e : PyStr) (colour : Nat)
    (he : pyGet cfg.emojis (some l) = some e)
    (hc : Long.resolveColour cfg.colours l = Except.ok colour) :
    ((msg.contains '\n' = false ∧ msg.length ≤ cfg.embed_line_wrap_threshold →
      (Long.emit cfg false (okEnv msg) l).message =
        some (OutMessage.embed ((if e = [] then [] else e ++ str " ") ++ msg)
          none colour)) ∧
     (Long.should_format_as_code_block cfg msg = true ∧
        Long.max_line_length msg > cfg.embed_line_wrap_threshold →
      (Long.emit cfg false (okEnv msg) l).message =
        some (OutMessage.content (str "```" ++ (if e = [] then [] else e ++ str " ") ++
          Long.clip_content msg 1900 true ++ str "```"))) ∧
     (Long.should_format_as_code_block cfg msg = true ∧
        ¬ Long.max_line_length msg > cfg.embed_line_wrap_threshold →
      (Long.emit cfg false (okEnv msg) l).message =
        some (OutMessage.embed
          ((if e = [] then [] else e ++ str " ") ++ (Long.splitFirstLine msg).1)
          (some (Long.clip_content (Long.splitFirstLine msg).2 1900 true)) colour))) := by
  have hmsg := longEmitMessageOk cfg msg l colour (okEnv msg) rfl rfl hc
  have hpf := (emojiFacts cfg.emojis l e he).1
  have htr := (emojiFacts cfg.emojis l e he).2
  refine ⟨?_, ?_, ?_⟩
  · rintro ⟨h1, h2⟩
    rw [hmsg, code_block_false cfg msg h1 h2]
    simp only [Bool.false_eq_true, if_false, Option.some.injEq]
    rw [hpf, htr]
    by_cases hne : e = []
    · subst hne
      simp
    · rw [if_neg hne]
      cases e with
      | nil => exact absurd rfl hne
      | cons c tl => simp
  · rintro ⟨h1, h2⟩
    rw [hmsg, h1]
    simp only [if_true, Option.some.injEq]
    rw [if_pos h2, hpf]
  · rintro ⟨h1, h2⟩
    rw [hmsg, h1]
    simp only [if_true, Option.some.injEq]
    rw [if_neg h2, hpf]

/-- C5 witness: the five-character single-line message `hello` at level
CRITICAL becomes a short embed with the SOS emoji prefix and no
description. -/
theorem claim5_witness :
    (Long.emit Long.defaultConfig false (okEnv (str "hello")) 50).message =
      some (OutMessage.embed
        ((if str "🆘" = ([] : PyStr) then [] else str "🆘" ++ str " ") ++ str "hello")
        none 14362664) :=
  (claim5_layout Long.defaultConfig 50 (str "hello") (str "🆘") 14362664 rfl rfl).1
    ⟨by decide, by decide⟩

/-! ### C7 -/

/-- C7: the claim that every outbound text field is at most 1900
characters is false: the minimal variant applies no clipping at all.
Concrete input: the minimal variant with default configuration and a
1901-character single-line message at level INFO sends an embed whose
title has 1901 characters. -/
theorem claim7_counterexample :
    (Minimal.emit Minimal.defaultConfig false
      (okEnv (List.replicate 1901 (Char.ofNat 97))) 20).message =
      some (OutMessage.embed (List.replicate 1901 (Char.ofNat 97)) none 2196944) ∧
    (List.replicate 1901 (Char.ofNat 97)).length > 1900 := by
  constructor
  · rfl
  · rw [List.length_replicate]
    omega

/-- C7 (amended): only the long-format variant clips, and only partially.
Writing `P` for the length of the rendered emoji prefix: a code-block
content field is at most `P + 1909` characters long (1903 characters of
clipped message plus six fence backticks plus the prefix); an embed
description is a clipped field of at most 1903 characters, and the title
next to it is at most `P` plus the wrap threshold; a short embed title is
at most `P` plus the wrap threshold.  None of these fields is bounded by
1900, and the minimal variant sends the emoji-prefixed message with no
bound at all. -/
theorem claim7_field_bounds (cfg : Long.Config) (msg : PyStr) (l : Nat) :
    (∀ body, (Long.emit cfg false (okEnv msg) l).message =
        some (OutMessage.content body) →
      body.length ≤ (Long.pyFStr (Long.emojiVar cfg.emojis l)).length + 1909) ∧
    (∀ t d c, (Long.emit cfg false (okEnv msg) l).message =
        some (OutMessage.embed t (some d) c) →
      d.length ≤ 1903 ∧
      t.length ≤ (Long.pyFStr (Long.emojiVar cfg.emojis l)).length +
        cfg.embed_line_wrap_threshold) ∧
    (∀ t c, (Long.emit cfg false (okEnv msg) l).message =
        some (OutMessage.embed t none c) →
      t.length ≤ (Long.pyFStr (Long.emojiVar cfg.emojis l)).length +
        cfg.embed_line_wrap_threshold) := by
  cases hrc : Long.resolveColour cfg.colours l with
  | error er =>
    have hm := longEmitMessageErr cfg msg l er (okEnv msg) rfl rfl hrc
    refine ⟨?_, ?_, ?_⟩
    · intro body h
      rw [hm] at h
      cases h
    · intro t d c h
      rw [hm] at h
      cases h
    · intro t c h
      rw [hm] at h
      cases h
  | ok colour =>
    have hm := longEmitMessageOk cfg msg l colour (okEnv msg) rfl rfl hrc
    refine ⟨?_, ?_, ?_⟩
    · intro body h
      rw [hm] at h
      by_cases hsf : Long.should_format_as_code_block cfg msg = true
      · rw [hsf] at h
        simp only [if_true] at h
        by_cases hml : Long.max_line_length msg > cfg.embed_line_wrap_threshold
        · rw [if_pos hml] at h
          simp only [Option.some.injEq, OutMessage.content.injEq] at h
          subst h
          have hclip := clipLenBound msg 1900 true (by omega)
          simp only [List.length_append, show (str "```").length = 3 from rfl]
          omega
        · rw [if_neg hml] at h
          cases h
      · rw [Bool.not_eq_true] at hsf
        rw [hsf] at h
        simp only [Bool.false_eq_true, if_false] at h
        cases h
    · intro t d c h
      rw [hm] at h
      by_cases hsf : Long.should_format_as_code_block cfg msg = true
      · rw [hsf] at h
        simp only [if_true] at h
        by_cases hml : Long.max_line_length msg > cfg.embed_line_wrap_threshold
        · rw [if_pos hml] at h
          cases h
        · rw [if_neg hml] at h
          simp only [Option.some.injEq, OutMessage.embed.injEq] at h
          obtain ⟨ht, hd, _⟩ := h
          subst ht
          constructor
          · rw [← hd]
            exact clipLenBound (Long.splitFirstLine msg).2 1900 true (by omega)
          · rw [List.length_append]
            have h1 := firstLine_le_max msg
            omega
      · rw [Bool.not_eq_true] at hsf
        rw [hsf] at h
        simp only [Bool.false_eq_true, if_false] at h
        cases h
    · intro t c h
      rw [hm] at h
      by_cases hsf : Long.should_format_as_code_block cfg msg = true
      · rw [hsf] at h
        simp only [if_true] at h
        by_cases hml : Long.max_line_length msg > cfg.embed_line_wrap_threshold
        · rw [if_pos hml] at h
          cases h
        · rw [if_neg hml] at h
          cases h
      · rw [Bool.not_eq_true] at hsf
        rw [hsf] at h
        simp only [Bool.false_eq_true, if_false, Option.some.injEq,
          OutMessage.embed.injEq] at h
        obtain ⟨ht, _, _⟩ := h
        have hlen := (not_code_block cfg msg hsf).2
        subst ht
        by_cases htr : Long.truthy (Long.emojiVar cfg.emojis l) = true
        · rw [if_pos htr, List.length_append]
          omega
        · rw [Bool.not_eq_true] at htr
          rw [htr]
          simp only [Bool.false_eq_true, if_false]
          omega

/-- C7 witness: the short message `hello` at level INFO yields an embed
title within the emoji-prefix-plus-threshold bound. -/
theorem claim7_witness :
    (str "hello").length ≤
      (Long.pyFStr (Long.emojiVar Long.defaultConfig.emojis 20)).length +
        Long.defaultConfig.embed_line_wrap_threshold :=
  (claim7_field_bounds Long.defaultConfig (str "hello") 20).2.2 (str "hello") 2196944 rfl

/-! ### C8 -/

/-- C8: the claim that a record whose severity has no emoji in the mapping
is sent without any prefix fails in the long-format variant.  Concrete
failing input: level 15 (absent from the default emoji mapping) with the
two-line message `a`, newline, `b`: the `emoji` variable holds Python
`None`, and the embed-building f-string renders it, producing the title
`Nonea` instead of `a` (the minimal variant, sending the same record,
correctly leaves the message unprefixed). -/
theorem claim8_none_prefix :
    pyGet Long.DEFAULT_EMOJIS (some 15) = none ∧
    (Long.emit Long.defaultConfig false (okEnv (str "a\nb")) 15).message =
      some (OutMessage.embed (str "Nonea") (some (str "b")) 2040357) ∧
    (Minimal.emit Minimal.defaultConfig false (okEnv (str "a")) 15).message =
      some (OutMessage.embed (str "a") none 2040357) := by
  refine ⟨rfl, ?_, rfl⟩
  decide

/-! ### C9 -/

/-- C9: the claim that zero outbound POSTs occur only on a
reentrancy-guard short-circuit is false: a `format` failure on a call
entered with the flag clear also performs zero POSTs (while still writing
the diagnostic and calling `handleError`, so it is not a short-circuit). -/
theorem claim9_counterexample :
    Long.emit Long.defaultConfig false
      { constructErr := none, formatResult := Except.error PyErr.generic,
        executeErr := none } 20 =
      { reentry_barrier := false,
        events := [Event.stderrLine, Event.handleErrorCall],
        message := none, raised := none } ∧
    List.count Event.post [Event.stderrLine, Event.handleErrorCall] = 0 ∧
    ¬ ([Event.stderrLine, Event.handleErrorCall] : List Event) = [] := by
  refine ⟨rfl, by decide, by decide⟩

/-- At most one POST per call of the long variant. -/
theorem longPostLe (cfg : Long.Config) (b : Bool) (env : Env) (l : Nat) :
    (Long.emit cfg b env l).events.count Event.post ≤ 1 := by
  rcases env with ⟨ce, fr, ee⟩
  cases b with
  | true => simp [Long.emit]
  | false =>
    cases ce with
    | some e => simp [Long.emit]
    | none =>
      cases fr with
      | error e => simp [Long.emit]
      | ok m =>
        cases hrc : Long.resolveColour cfg.colours l with
        | error er => simp [Long.emit, hrc]
        | ok c => cases ee <;> simp [Long.emit, hrc]

/-- At most one self-written stderr line per call of the long variant. -/
theorem longStderrLe (cfg : Long.Config) (b : Bool) (env : Env) (l : Nat) :
    (Long.emit cfg b env l).events.count Event.stderrLine ≤ 1 := by
  rcases env with ⟨ce, fr, ee⟩
  cases b with
  | true => simp [Long.emit]
  | false =>
    cases ce with
    | some e => simp [Long.emit]
    | none =>
      cases fr with
      | error e => simp [Long.emit]
      | ok m =>
        cases hrc : Long.resolveColour cfg.colours l with
        | error er => simp [Long.emit, hrc]
        | ok c => cases ee <;> simp [Long.emit, hrc]

/-- At most one POST per call of the minimal variant. -/
theorem minimalPostLe (cfg : Minimal.Config) (b : Bool) (env : Env) (l : Nat) :
    (Minimal.emit cfg b env l).events.count Event.post ≤ 1 := by
  rcases env with ⟨ce, fr, ee⟩
  cases b with
  | true => simp [Minimal.emit]
  | false =>
    cases fr with
    | error e => cases e <;> simp [Minimal.emit, Minimal.errorEvents]
    | ok m =>
      cases hfb : pyGet cfg.colours none with
      | none => simp [Minimal.emit, hfb, Minimal.errorEvents]
      | some fb =>
        cases ce with
        | some e => cases e <;> simp [Minimal.emit, hfb, Minimal.errorEvents]
        | none =>
          cases ee with
          | some e => cases e <;> simp [Minimal.emit, hfb, Minimal.errorEvents]
          | none => simp [Minimal.emit, hfb]

/-- At most one self-written stderr line per call of the minimal variant. -/
theorem minimalStderrLe (cfg : Minimal.Config) (b : Bool) (env : Env) (l : Nat) :
    (Minimal.emit cfg b env l).events.count Event.stderrLine ≤ 1 := by
  rcases env with ⟨ce, fr, ee⟩
  cases b with
  | true => simp [Minimal.emit]
  | false =>
    cases fr with
    | error e => cases e <;> simp [Minimal.emit, Minimal.errorEvents]
    | ok m =>
      cases hfb : pyGet cfg.colours none with
      | none => simp [Minimal.emit, hfb, Minimal.errorEvents]
      | some fb =>
        cases ce with
        | some e => cases e <;> simp [Minimal.emit, hfb, Minimal.errorEvents]
        | none =>
          cases ee with
          | some e => cases e <;> simp [Minimal.emit, hfb, Minimal.errorEvents]
          | none => simp [Minimal.emit, hfb]

/-- Exactly when the long variant performs zero POSTs. -/
theorem longPostZeroIff (cfg : Long.Config) (b : Bool) (env : Env) (l : Nat) :
    (Long.emit cfg b env l).events.count Event.post = 0 ↔
      b = true ∨ ¬ env.constructErr = none ∨
      (∃ er, env.formatResult = Except.error er) ∨
      (∃ er, Long.resolveColour cfg.colours l = Except.error er) := by
  rcases env with ⟨ce, fr, ee⟩
  cases b with
  | true => simp [Long.emit]
  | false =>
    cases ce with
    | some e => simp [Long.emit]
    | none =>
      cases fr with
      | error e => simp [Long.emit]
      | ok m =>
        cases hrc : Long.resolveColour cfg.colours l with
        | error er => simp [Long.emit, hrc]
        | ok c => cases ee <;> simp [Long.emit, hrc]

/-- Exactly when the minimal variant performs zero POSTs. -/
theorem minimalPostZeroIff (cfg : Minimal.Config) (b : Bool) (env : Env) (l : Nat) :
    (Minimal.emit cfg b env l).events.count Event.post = 0 ↔
      b = true ∨ (∃ er, env.formatResult = Except.error er) ∨
      pyGet cfg.colours none = none ∨ ¬ env.constructErr = none := by
  rcases env with ⟨ce, fr, ee⟩
  cases b with
  | true => simp [Minimal.emit]
  | false =>
    cases fr with
    | error e => cases e <;> simp [Minimal.emit, Minimal.errorEvents]
    | ok m =>
      cases hfb : pyGet cfg.colours none with
      | none => simp [Minimal.emit, hfb, Minimal.errorEvents]
      | some fb =>
        cases ce with
        | some e => cases e <;> simp [Minimal.emit, hfb, Minimal.errorEvents]
        | none =>
          cases ee with
          | some e => cases e <;> simp [Minimal.emit, hfb, Minimal.errorEvents]
          | none => simp [Minimal.emit, hfb]

/-- C9 (amended): every `emit` call performs at most one outbound POST and
writes at most one diagnostic line to stderr itself, in both variants;
zero POSTs happen exactly when the reentrancy guard short-circuits the
call or a failure occurs before the send call (webhook construction or
formatting or, in the long variant, colour resolution; in the minimal
variant a missing colour-fallback key). -/
theorem claim9_side_effects (lcfg : Long.Config) (mcfg : Minimal.Config)
    (b : Bool) (env : Env) (l : Nat) :
    (Long.emit lcfg b env l).events.count Event.post ≤ 1 ∧
    (Long.emit lcfg b env l).events.count Event.stderrLine ≤ 1 ∧
    (Minimal.emit mcfg b env l).events.count Event.post ≤ 1 ∧
    (Minimal.emit mcfg b env l).events.count Event.stderrLine ≤ 1 ∧
    ((Long.emit lcfg b env l).events.count Event.post = 0 ↔
      b = true ∨ ¬ env.constructErr = none ∨
      (∃ er, env.formatResult = Except.error er) ∨
      (∃ er, Long.resolveColour lcfg.colours l = Except.error er)) ∧
    ((Minimal.emit mcfg b env l).events.count Event.post = 0 ↔
      b = true ∨ (∃ er, env.formatResult = Except.error er) ∨
      pyGet mcfg.colours none = none ∨ ¬ env.constructErr = none) :=
  ⟨longPostLe lcfg b env l, longStderrLe lcfg b env l,
   minimalPostLe mcfg b env l, minimalStderrLe mcfg b env l,
   longPostZeroIff lcfg b env l, minimalPostZeroIff mcfg b env l⟩

/-- C9 witness: on a fully successful call both variants perform at most
one POST and at most one stderr write. -/
theorem claim9_witness :
    (Long.emit Long.defaultConfig false (okEnv (str "hi")) 20).events.count
      Event.post ≤ 1 ∧
    (Minimal.emit Minimal.defaultConfig false (okEnv (str "hi")) 20).events.count
      Event.post ≤ 1 :=
  ⟨(claim9_side_effects Long.defaultConfig Minimal.defaultConfig false
      (okEnv (str "hi")) 20).1,
   (claim9_side_effects Long.defaultConfig Minimal.defaultConfig false
      (okEnv (str "hi")) 20).2.2.1⟩
